import Mathlib

/-!
Verification development for the `gvi` launcher utility (src/main.rs).

The program expands a list of paths into a bounded list of files, rejects
over-large batches, and opens each file in gvim, either by spawning a fresh
gvim process or by sending a remote command to a running instance found in
the process table.

The embedding below is a shallow functional model of the source:

* `process_check` models `GvimState::process_check`: the process-table
  snapshot is a `List Proc`, where `Proc.run_time` is the whole-second
  elapsed run time that `sysinfo`'s `run_time()` reports.
* `open_single_item` / `dispatch_loop` model `GvimState::open_single_item`
  and the per-file loop in `App::run`; external effects (path existence,
  process-table contents per probe, spawn success per attempt) come from a
  `World` record, and the observable actions (probe, sleep, spawn) are
  emitted as an ordered `Event` list.
* `has_large_size_of_files` models `App::has_large_size_of_files`, the
  batch given as each file's metadata result (`none` = metadata unreadable).
* `expand_dir` / `expand_entries` model `expand_dir`, over a filesystem
  snapshot `FsTree`; `Except.error ()` models the hard
  `std::process::exit(1)` taken when the shared budget check fires.
* `run_gvim_check` models the first statement of `App::run`, the
  `which::which("gvim").unwrap()` precondition check.
-/

/-- `CheckState` from main.rs: the memoized instance-probe state. -/
inductive CheckState where
  | NeverChecked
  | CheckedTrue
  | CheckedFalse
deriving DecidableEq, Repr

/-- One process-table entry as seen through `sysinfo`: its name and the
whole-second run time that `run_time()` reports. -/
structure Proc where
  name : String
  run_time : Nat
deriving DecidableEq, Repr

/-- `sysinfo`'s `run_time()` reports whole seconds: a process whose real
elapsed time is `elapsedMillis` reports `elapsedMillis / 1000` seconds. -/
def sysinfoRunTimeOfMillis (elapsedMillis : Nat) : Nat :=
  elapsedMillis / 1000

def TIME_TO_START_UP_MILLIS : Nat := 2000

/-- The name match in `process_check`: `p.name() == "gvim" || p.name() == "gvim.exe"`. -/
def gvimProcessName (s : String) : Bool :=
  s == "gvim" || s == "gvim.exe"

/-- Embedding of `GvimState::process_check` over a process-table snapshot.
Returns the new check state together with the number of milliseconds the
probe sleeps (`0` = no sleep): when a gvim process is found whose
`run_time() * 1000` is below the warm-up interval, the probe sleeps for the
remainder of the interval and reports `CheckedTrue`; when none is found it
reports `CheckedFalse` without sleeping. -/
def process_check (procs : List Proc) : CheckState × Nat :=
  match procs.find? (fun p => gvimProcessName p.name) with
  | some p =>
    let run_millis := p.run_time * 1000
    if run_millis < TIME_TO_START_UP_MILLIS then
      (CheckState.CheckedTrue, TIME_TO_START_UP_MILLIS - run_millis)
    else
      (CheckState.CheckedTrue, 0)
  | none => (CheckState.CheckedFalse, 0)

/-- `AppError` from main.rs. The spawn error carries the OS error message. -/
inductive AppError where
  | ItemPathNotExist (path : String)
  | CommandSpawnError (msg : String)
deriving DecidableEq, Repr

/-- Observable external actions of a run, in order: a process-table probe,
a warm-up sleep, and a `Command::new("gvim")` spawn with its argument list. -/
inductive Event where
  | probe
  | sleep (millis : Nat)
  | spawn (args : List String)
deriving DecidableEq, Repr

/-- `GvimState` from main.rs. -/
structure GvimState where
  is_instance_exists : CheckState
  opened_files : Nat
deriving DecidableEq, Repr

/-- The external world of one run: which paths exist at dispatch time, the
process table observed by the k-th probe, and the outcome of the k-th spawn
attempt (`none` = spawn succeeded, `some msg` = OS error). -/
structure World where
  pathExists : String → Bool
  tables : Nat → List Proc
  spawnResult : Nat → Option String

/-- Run state: the `GvimState` plus counters of how many probes and spawn
attempts have happened so far (indices into `World.tables` / `World.spawnResult`). -/
structure RunState where
  gvim : GvimState
  probes : Nat
  spawns : Nat
deriving DecidableEq, Repr

/-- `GvimState::new()` wrapped in a fresh run state: `NeverChecked`, no
files opened, no probes or spawns performed. -/
def initState : RunState :=
  { gvim := { is_instance_exists := CheckState.NeverChecked, opened_files := 0 },
    probes := 0, spawns := 0 }

/-- One invocation of `process_check` inside a run: consumes the next
process-table snapshot, stores the result in `is_instance_exists`, and emits
the probe event plus the sleep event when the probe slept. -/
def runProbe (w : World) (s : RunState) : RunState × List Event :=
  let r := process_check (w.tables s.probes)
  ({ s with probes := s.probes + 1,
            gvim := { s.gvim with is_instance_exists := r.1 } },
   Event.probe :: (if r.2 = 0 then [] else [Event.sleep r.2]))

/-- Embedding of `GvimState::exec_gvim`: attempts one spawn with the given
argument list; on success increments `opened_files`, on failure returns
`CommandSpawnError`. Either way the spawn attempt is emitted as an event. -/
def exec_gvim (w : World) (args : List String) (s : RunState) :
    Except AppError Unit × RunState × List Event :=
  match w.spawnResult s.spawns with
  | none =>
    (Except.ok (),
     { s with spawns := s.spawns + 1,
              gvim := { s.gvim with opened_files := s.gvim.opened_files + 1 } },
     [Event.spawn args])
  | some msg =>
    (Except.error (AppError.CommandSpawnError msg),
     { s with spawns := s.spawns + 1 },
     [Event.spawn args])

/-- Embedding of `GvimState::open_single_item`: a missing path fails with
`ItemPathNotExist` before anything else; otherwise the probe runs when the
state is `NeverChecked` or `CheckedFalse` (but not `CheckedTrue`), and the
file is dispatched by a fresh spawn (`CheckedFalse`) or a remote-tab
invocation (`CheckedTrue`). -/
def open_single_item (w : World) (path : String) (s : RunState) :
    Except AppError Unit × RunState × List Event :=
  if w.pathExists path = false then
    (Except.error (AppError.ItemPathNotExist path), s, [])
  else
    let pr :=
      match s.gvim.is_instance_exists with
      | CheckState.NeverChecked => runProbe w s
      | CheckState.CheckedFalse => runProbe w s
      | CheckState.CheckedTrue => (s, [])
    match pr.1.gvim.is_instance_exists with
    | CheckState.CheckedFalse =>
      let r := exec_gvim w [path] pr.1
      (r.1, r.2.1, pr.2 ++ r.2.2)
    | CheckState.CheckedTrue =>
      let r := exec_gvim w ["--server-name", "GVIM", "--remote-tab", path] pr.1
      (r.1, r.2.1, pr.2 ++ r.2.2)
    | CheckState.NeverChecked => (Except.ok (), pr.1, pr.2)

/-- The per-file loop at the end of `App::run`: dispatches every file in
batch order, collecting each file's result and the emitted events. An `Err`
result is printed to stderr and the loop moves on. -/
def dispatch_loop (w : World) (s : RunState) :
    List String → RunState × List (Except AppError Unit) × List Event
  | [] => (s, [], [])
  | p :: rest =>
    let r := open_single_item w p s
    let rec' := dispatch_loop w r.2.1 rest
    (rec'.1, r.1 :: rec'.2.1, r.2.2 ++ rec'.2.2)

/-- The tail of `App::run` after the size check: run the dispatch loop over
the whole batch, then fall off the end of `main`. The loop body only prints
per-file errors (no `exit` call occurs in it), so the process exit code of
this phase is 0 regardless of per-file failures. -/
def run_dispatch_phase (w : World) (s : RunState) (paths : List String) :
    Nat × RunState × List (Except AppError Unit) :=
  let r := dispatch_loop w s paths
  (0, r.1, r.2.1)

/-- `MAX_SIZE` from main.rs: 300 KiB. -/
def MAX_SIZE : Nat := 1024 * 300

/-- The loop body of `App::has_large_size_of_files`: the accumulator is the
pair of the source's `sum` and `res` variables. A readable metadata result
adds its size to `sum` and sets `res` once `sum` exceeds `MAX_SIZE`; the
`Err(_) => {}` arm leaves both untouched. -/
def sizeStep (acc : Nat × Bool) (m : Option Nat) : Nat × Bool :=
  match m with
  | some size =>
    let sum := acc.1 + size
    (sum, if sum > MAX_SIZE then true else acc.2)
  | none => acc

/-- Embedding of `App::has_large_size_of_files`. The batch is given by each
path's `fs::metadata` result: `some size`, or `none` when the metadata
cannot be read (contributing nothing to the sum). -/
def has_large_size_of_files (files : List (Option Nat)) : Bool :=
  (files.foldl sizeStep (0, false)).2

/-- The summed on-disk size of a batch, unreadable metadata counting as 0. -/
def batchSize (files : List (Option Nat)) : Nat :=
  (files.map (fun m => m.getD 0)).sum

/-- Outcome of the `which::which("gvim")` precondition check at the top of
`App::run`. `aborted` is a Rust panic (the process aborts with exit
code 101 and a panic message, not the explanatory message); `exited c` is
`eprintln!` of the explanatory message followed by `std::process::exit(c)`. -/
inductive RunStart where
  | aborted
  | exited (code : Nat)
  | proceeded
deriving DecidableEq, Repr

/-- Embedding of the first statement of `App::run`:
`if !which::which("gvim").unwrap().exists() { eprintln!(..); exit(1) }`.
`whichGvim` is the result of `which::which("gvim")` (`none` = the executable
is not discoverable on the search path, in which case `which` returns `Err`
and `.unwrap()` panics before the `exists()` test or the `eprintln!` can
run); `pathExists` is `PathBuf::exists` on the path `which` returned. -/
def run_gvim_check (whichGvim : Option String) (pathExists : String → Bool) : RunStart :=
  match whichGvim with
  | none => RunStart.aborted
  | some p => if pathExists p = false then RunStart.exited 1 else RunStart.proceeded

/-- `MAX_FILES` from main.rs: at most 30 entries taken per directory listing
(and from the top-level argument list). -/
def MAX_FILES : Nat := 30

/-- A snapshot of the part of the filesystem a run can reach. `file id`
is a regular file (after following symbolic links), identified by `id`
(standing for its path); `dir entries` is a readable directory with its
listing in iteration order (each listed entry readable, mirroring the
`filter_map` that drops unreadable `DirEntry` results); `unreadable` is any
path that is neither a regular file nor a readable directory (missing,
permission error, ...). -/
inductive FsTree where
  | file (id : Nat)
  | dir (entries : List FsTree)
  | unreadable
deriving Repr

mutual

/-- Embedding of `expand_dir` from main.rs over a snapshot `FsTree`, with
the shared visited-entry budget threaded explicitly. A regular file
increments the budget and returns itself; an unreadable path is silently
skipped; a directory expands at most `MAX_FILES` of its listed entries.
`Except.error ()` models the hard `std::process::exit(1)` taken when the
budget check inside the directory-entry loop fires. -/
def expand_dir : FsTree → Nat → Except Unit (List Nat × Nat)
  | FsTree.file id, count => Except.ok ([id], count + 1)
  | FsTree.unreadable, count => Except.ok ([], count)
  | FsTree.dir entries, count => expand_entries MAX_FILES entries count

/-- The directory-entry loop of `expand_dir`: for each listed entry, up to
the `fuel` many the `take(MAX_FILES)` admits, increment the shared budget,
terminate the whole process when it exceeds 100, and otherwise recurse into
the entry, concatenating the results in listing order. -/
def expand_entries : Nat → List FsTree → Nat → Except Unit (List Nat × Nat)
  | _, [], count => Except.ok ([], count)
  | 0, _ :: _, count => Except.ok ([], count)
  | fuel + 1, t :: rest, count =>
    if count + 1 > 100 then Except.error ()
    else
      match expand_dir t (count + 1) with
      | Except.error e => Except.error e
      | Except.ok (files, count2) =>
        match expand_entries fuel rest count2 with
        | Except.error e => Except.error e
        | Except.ok (files2, count3) => Except.ok (files ++ files2, count3)

end

/-- `expand_dir` applied a second time to the same snapshot, each run
starting from a fresh budget counter of 0, as in two invocations of the
program on an unchanged filesystem. -/
def run_expansion_twice (t : FsTree) :
    Except Unit (List Nat × Nat) × Except Unit (List Nat × Nat) :=
  (expand_dir t 0, expand_dir t 0)

/-- Number of probe events in an event trace. -/
def countProbes (evs : List Event) : Nat :=
  evs.countP (fun e => decide (e = Event.probe))

/-- A run environment where every path exists, the process table is always
empty (no gvim instance ever appears), and every spawn succeeds. -/
def w0 : World :=
  { pathExists := fun _ => true, tables := fun _ => [], spawnResult := fun _ => none }

/-- A run environment where no path exists at dispatch time. -/
def wNoPath : World :=
  { pathExists := fun _ => false, tables := fun _ => [], spawnResult := fun _ => none }

/-- A run state whose memoized probe state is `CheckedTrue` (an instance
was found by an earlier probe of this run). -/
def stateCheckedTrue : RunState :=
  { gvim := { is_instance_exists := CheckState.CheckedTrue, opened_files := 0 },
    probes := 0, spawns := 0 }

/-- A run state whose memoized probe state is `CheckedFalse` (the last
probe of this run found no instance). -/
def stateCheckedFalse : RunState :=
  { gvim := { is_instance_exists := CheckState.CheckedFalse, opened_files := 0 },
    probes := 0, spawns := 0 }

/-- The input tree refuting the global expansion cap: a directory holding a
25-file subdirectory, a 23-file subdirectory, an empty subdirectory and one
regular file. Walking it performs 99 checked directory-entry increments and
then one unchecked file-branch increment, ending at budget 101 with no
termination. -/
def c2_tree : FsTree :=
  FsTree.dir
    [FsTree.dir ((List.range 25).map FsTree.file),
     FsTree.dir ((List.range 23).map (fun i => FsTree.file (100 + i))),
     FsTree.dir [],
     FsTree.file 999]

/-! ## Helper lemmas -/

/-- Folding `sizeStep` from an accumulator whose flag agrees with its sum
keeps that agreement: the flag ends up set exactly when the final sum
exceeds `MAX_SIZE` (the running sum is monotone, so the one-way flag of the
source is equivalent to a check of the final sum). -/
theorem sizeStep_fold (files : List (Option Nat)) : ∀ sum : Nat,
    files.foldl sizeStep (sum, decide (sum > MAX_SIZE))
      = (sum + batchSize files, decide (sum + batchSize files > MAX_SIZE)) := by
  induction files with
  | nil =>
    intro sum
    simp [batchSize]
  | cons m rest ih =>
    intro sum
    cases m with
    | none =>
      have hstep : sizeStep (sum, decide (sum > MAX_SIZE)) none
          = (sum, decide (sum > MAX_SIZE)) := rfl
      simp only [List.foldl_cons, hstep, ih]
      simp [batchSize]
    | some s =>
      have hstep : sizeStep (sum, decide (sum > MAX_SIZE)) (some s)
          = (sum + s, decide (sum + s > MAX_SIZE)) := by
        simp only [sizeStep]
        by_cases h : sum + s > MAX_SIZE
        · simp [h]
        · have h2 : ¬ sum > MAX_SIZE := by omega
          simp [h, h2]
      simp only [List.foldl_cons, hstep, ih]
      simp [batchSize, Nat.add_assoc]

/-- Joint budget bound for `expand_dir` and its entry loop: an expansion
that completes (no hard exit) from a budget of at most 100 ends with a
budget of at most 101 — every directory-entry increment is checked against
100 before recursing, and the only unchecked increment (the regular-file
branch) can push the budget a single step past the cap. -/
theorem expand_count_bound :
    (∀ (t : FsTree) (count : Nat), ∀ files count', count ≤ 100 →
        expand_dir t count = Except.ok (files, count') → count' ≤ 101) ∧
    (∀ (fuel : Nat) (l : List FsTree) (count : Nat), ∀ files count', count ≤ 101 →
        expand_entries fuel l count = Except.ok (files, count') → count' ≤ 101) := by
  refine expand_dir.mutual_induct
    (fun t count => ∀ files count', count ≤ 100 →
        expand_dir t count = Except.ok (files, count') → count' ≤ 101)
    (fun fuel l count => ∀ files count', count ≤ 101 →
        expand_entries fuel l count = Except.ok (files, count') → count' ≤ 101)
    ?_ ?_ ?_ ?_ ?_ ?_ ?_ ?_ ?_
  · intro id count files count' hc heq
    simp [expand_dir] at heq
    omega
  · intro count files count' hc heq
    simp [expand_dir] at heq
    omega
  · intro entries count ih files count' hc heq
    simp only [expand_dir] at heq
    exact ih files count' (by omega) heq
  · intro fuel count files count' hc heq
    simp [expand_entries] at heq
    omega
  · intro t rest count files count' hc heq
    simp [expand_entries] at heq
    omega
  · intro fuel t rest count hgt files count' hc heq
    simp [expand_entries, hgt] at heq
  · intro fuel t rest count hle e hderr ih files count' hc heq
    simp [expand_entries, hle, hderr] at heq
  · intro fuel t rest count hle fs2 c3 hdok e herr ih1 ih2 files count' hc heq
    simp [expand_entries, hle, hdok, herr] at heq
  · intro fuel t rest count hle fs2 c3 hdok fs3 c4 heok ih1 ih2 files count' hc heq
    simp only [expand_entries, hle, hdok, heok, if_neg, ite_false] at heq
    have h3 : c3 ≤ 101 := ih1 fs2 c3 (by omega) hdok
    have h4 : c4 ≤ 101 := ih2 fs3 c4 h3 heok
    simp at heq
    omega

/-- The entry loop only ever looks at the first `fuel` entries of a
listing: truncating the listing to `fuel` entries does not change it. -/
theorem expand_entries_take (fuel : Nat) : ∀ (l : List FsTree) (count : Nat),
    expand_entries fuel (l.take fuel) count = expand_entries fuel l count := by
  induction fuel with
  | zero =>
    intro l count
    cases l <;> simp [expand_entries]
  | succ fuel ih =>
    intro l count
    cases l with
    | nil => simp
    | cons t rest =>
      simp only [List.take_succ_cons, expand_entries]
      simp only [ih]

/-- A dispatch from a `CheckedTrue` state leaves the memoized probe state
`CheckedTrue` and performs no probe. -/
theorem open_single_item_of_checkedTrue (w : World) (p : String) (s : RunState)
    (h : s.gvim.is_instance_exists = CheckState.CheckedTrue) :
    (open_single_item w p s).2.1.gvim.is_instance_exists = CheckState.CheckedTrue ∧
    Event.probe ∉ (open_single_item w p s).2.2 := by
  by_cases hex : w.pathExists p = false
  · simp [open_single_item, hex, h]
  · cases hw : w.spawnResult s.spawns <;>
      simp [open_single_item, hex, h, exec_gvim, hw]

/-- Once the memoized probe state is `CheckedTrue`, the rest of the
dispatch loop performs no probe at all. -/
theorem dispatch_loop_no_probe (w : World) (paths : List String) : ∀ s : RunState,
    s.gvim.is_instance_exists = CheckState.CheckedTrue →
    Event.probe ∉ (dispatch_loop w s paths).2.2 := by
  induction paths with
  | nil =>
    intro s _
    simp [dispatch_loop]
  | cons p rest ih =>
    intro s h
    have hstep := open_single_item_of_checkedTrue w p s h
    show Event.probe ∉
      (open_single_item w p s).2.2 ++ (dispatch_loop w (open_single_item w p s).2.1 rest).2.2
    intro hmem
    rcases List.mem_append.mp hmem with h1 | h2
    · exact hstep.2 h1
    · exact ih ((open_single_item w p s).2.1) hstep.1 h2

/-- A dispatch of an existing path from a `CheckedFalse` state runs the
probe (the probe event is in its trace). -/
theorem open_single_item_probes_of_checkedFalse (w : World) (p : String) (s : RunState)
    (h : s.gvim.is_instance_exists = CheckState.CheckedFalse)
    (hex : w.pathExists p = true) :
    Event.probe ∈ (open_single_item w p s).2.2 := by
  have hne : ¬ (w.pathExists p = false) := by simp [hex]
  rcases hp : (process_check (w.tables s.probes)).1 with _ | _ | _ <;>
    simp [open_single_item, if_neg hne, h, runProbe, hp]

/-- The dispatch loop produces one result per input file, in order. -/
theorem dispatch_loop_length (w : World) (paths : List String) : ∀ s : RunState,
    ((dispatch_loop w s paths).2.1).length = paths.length := by
  induction paths with
  | nil =>
    intro s
    simp [dispatch_loop]
  | cons p rest ih =>
    intro s
    show ((open_single_item w p s).1 ::
      (dispatch_loop w (open_single_item w p s).2.1 rest).2.1).length = rest.length + 1
    simp [ih]

/-! ## Claims -/

/-- C1 counterexample: in a run over two existing files with no gvim
instance ever present, the first dispatch sets the probe state to
`CheckedFalse` (`InstanceNotFound`), yet the run performs two probes — the
second dispatch probes again, so a single probe result is not reused for
all files once the state has been set. -/
theorem C1_counterexample :
    (open_single_item w0 "a" initState).2.1.gvim.is_instance_exists
        = CheckState.CheckedFalse ∧
    countProbes (dispatch_loop w0 initState ["a", "b"]).2.2 = 2 :=
  ⟨rfl, rfl⟩

/-- C1 (amended): once the probe state has been set to `InstanceFound`
(`CheckedTrue`), the probe is never executed again for the remainder of the
run; a state of `InstanceNotFound` (`CheckedFalse`) is not reused — the
probe runs again at each subsequent dispatch of an existing path. -/
theorem C1_once_found_probe_never_rerun (w : World) (s : RunState) (paths : List String)
    (h : s.gvim.is_instance_exists = CheckState.CheckedTrue) :
    Event.probe ∉ (dispatch_loop w s paths).2.2 :=
  dispatch_loop_no_probe w paths s h

/-- Witness for C1 (amended) at a concrete run. -/
theorem C1_once_found_probe_never_rerun_witness :
    Event.probe ∉ (dispatch_loop w0 stateCheckedTrue ["a", "b"]).2.2 :=
  C1_once_found_probe_never_rerun w0 stateCheckedTrue ["a", "b"] rfl

/-- C2 counterexample: expanding `c2_tree` from a fresh budget completes
normally (no process termination) with the shared budget at 101 — the
budget exceeds 100 during the walk (the final file-branch increment is
unchecked), refuting both "terminates whenever the budget exceeds 100" and
"never visits more than 100 entries". -/
theorem C2_counterexample :
    expand_dir c2_tree 0 =
      Except.ok (List.range 25 ++ (List.range 23).map (fun i => 100 + i) ++ [999], 101) ∧
    ¬ (101 : Nat) ≤ 100 :=
  ⟨rfl, by decide⟩

/-- C2 (amended): directory expansion takes at most 30 entries from any
single directory listing (expanding a directory equals expanding it with
its listing truncated to `MAX_FILES`), and the 100-entry budget check runs
only after incrementing for a directory-listing entry, before recursing
into it; the regular-file branch increments the budget unchecked, so an
expansion that completes from a fresh budget ends with the budget at most
101, not 100. -/
theorem C2_expansion_caps_amended :
    (∀ (entries : List FsTree) (count : Nat),
        expand_dir (FsTree.dir entries) count
          = expand_dir (FsTree.dir (entries.take MAX_FILES)) count) ∧
    (∀ (t : FsTree) (files : List Nat) (count' : Nat),
        expand_dir t 0 = Except.ok (files, count') → count' ≤ 101) := by
  constructor
  · intro entries count
    show expand_entries MAX_FILES entries count
      = expand_entries MAX_FILES (entries.take MAX_FILES) count
    exact (expand_entries_take MAX_FILES entries count).symm
  · intro t files count' h
    exact expand_count_bound.1 t 0 files count' (by omega) h

/-- Witness for C2 (amended) at a concrete expansion. -/
theorem C2_expansion_caps_amended_witness :
    expand_dir (FsTree.file 5) 0 = Except.ok ([5], 1) ∧ (1 : Nat) ≤ 101 :=
  ⟨rfl, C2_expansion_caps_amended.2 (FsTree.file 5) [5] 1 rfl⟩

/-- C3: the size guard returns `false` when the summed on-disk size of the
batch is at most `MAX_SIZE` (300 KiB) and `true` when the sum strictly
exceeds it; a path with unreadable metadata contributes zero to the sum
(`batchSize` counts `none` as 0). -/
theorem C3_size_guard_threshold (files : List (Option Nat)) :
    has_large_size_of_files files = decide (batchSize files > MAX_SIZE) := by
  have h0 : ((0 : Nat), false) = ((0 : Nat), decide ((0 : Nat) > MAX_SIZE)) := rfl
  unfold has_large_size_of_files
  rw [h0, sizeStep_fold files 0]
  simp

/-- C4 counterexample: a gvim process that started 500 ms ago reports a
run time of 0 whole seconds (`sysinfo`'s `run_time()` is second-granular),
so the probe blocks for the full 2000 ms — not the 1500 ms the claim's
"2000 ms minus elapsed run time" scenario predicts. -/
theorem C4_counterexample :
    (process_check [{ name := "gvim", run_time := sysinfoRunTimeOfMillis 500 }]).2 = 2000 ∧
    (process_check [{ name := "gvim", run_time := sysinfoRunTimeOfMillis 500 }]).2 ≠ 1500 :=
  ⟨rfl, by decide⟩

/-- C4 (amended): when the probe finds a matching editor process whose
reported run time (in whole seconds, times 1000) is below the 2000 ms
warm-up interval, it blocks for exactly 2000 ms minus that reported
millisecond value before returning `InstanceFound`; a process started
500 ms ago reports 0 s, so the probe blocks the full 2000 ms. -/
theorem C4_warmup_sleep_amended (procs : List Proc) (p : Proc)
    (hfind : procs.find? (fun q => gvimProcessName q.name) = some p)
    (hlt : p.run_time * 1000 < TIME_TO_START_UP_MILLIS) :
    process_check procs
      = (CheckState.CheckedTrue, TIME_TO_START_UP_MILLIS - p.run_time * 1000) := by
  simp [process_check, hfind, hlt]

/-- Witness for C4 (amended): a freshly started gvim process (0 s reported)
makes the probe block 2000 ms. -/
theorem C4_warmup_sleep_amended_witness :
    process_check [{ name := "gvim", run_time := 0 }] = (CheckState.CheckedTrue, 2000) :=
  C4_warmup_sleep_amended [{ name := "gvim", run_time := 0 }]
    { name := "gvim", run_time := 0 } rfl (by decide)

/-- C5 (code behavior at the failing input): when the editor executable is
not discoverable on the search path, `which::which("gvim")` returns `Err`
and `.unwrap()` panics — the process aborts (exit code 101, panic output),
and the explanatory-message-plus-`exit(1)` branch never runs. The claim
(and the adjacent `eprintln!` in the source) describe the intended
behavior; the `unwrap` makes that branch unreachable for this condition. -/
theorem C5_missing_gvim_aborts (pe : String → Bool) :
    run_gvim_check none pe = RunStart.aborted ∧
    RunStart.aborted ≠ RunStart.exited 1 :=
  ⟨rfl, by decide⟩

/-- C6: within one run, once the probe has returned `InstanceFound`
(`CheckedTrue`) it is never invoked again no matter how many files remain,
while from a cached `InstanceNotFound` (`CheckedFalse`) state the probe is
attempted again at the next dispatch of an existing path. -/
theorem C6_probe_caching (w : World) (s sF : RunState) (paths : List String) (p : String) :
    (s.gvim.is_instance_exists = CheckState.CheckedTrue →
       Event.probe ∉ (dispatch_loop w s paths).2.2) ∧
    (sF.gvim.is_instance_exists = CheckState.CheckedFalse → w.pathExists p = true →
       Event.probe ∈ (open_single_item w p sF).2.2) :=
  ⟨fun h => dispatch_loop_no_probe w paths s h,
   fun h1 h2 => open_single_item_probes_of_checkedFalse w p sF h1 h2⟩

/-- Witness for C6 at a concrete run. -/
theorem C6_probe_caching_witness :
    Event.probe ∉ (dispatch_loop w0 stateCheckedTrue ["a", "b"]).2.2 ∧
    Event.probe ∈ (open_single_item w0 "a" stateCheckedFalse).2.2 :=
  ⟨(C6_probe_caching w0 stateCheckedTrue stateCheckedFalse ["a", "b"] "a").1 rfl,
   (C6_probe_caching w0 stateCheckedTrue stateCheckedFalse ["a", "b"] "a").2 rfl rfl⟩

/-- C7: per-file dispatch failures do not abort the run — the dispatch
phase produces one result per input file, in batch order, regardless of
which of them are errors, and its process exit code is 0 (the loop computes
no aggregate failure code; its error arms only print to stderr). -/
theorem C7_per_file_errors_nonfatal (w : World) (s : RunState) (paths : List String) :
    (run_dispatch_phase w s paths).1 = 0 ∧
    ((run_dispatch_phase w s paths).2.2).length = paths.length :=
  ⟨rfl, dispatch_loop_length w paths s⟩

/-- C8: a path that does not exist at dispatch time yields
`ItemPathNotExist` carrying that path, leaves the run state untouched, and
performs no external action at all — no spawn attempt and no probe (the
event trace is empty). -/
theorem C8_missing_path (w : World) (s : RunState) (p : String)
    (h : w.pathExists p = false) :
    open_single_item w p s = (Except.error (AppError.ItemPathNotExist p), s, []) := by
  simp [open_single_item, h]

/-- Witness for C8 at a concrete missing path. -/
theorem C8_missing_path_witness :
    open_single_item wNoPath "a" initState
      = (Except.error (AppError.ItemPathNotExist "a"), initState, []) :=
  C8_missing_path wNoPath initState "a" rfl

/-- C9: on a fixed filesystem snapshot, expansion is deterministic and
idempotent — two runs of `expand_dir` over the same tree, each from a fresh
budget counter, produce identical results (the embedding of the expansion
over a snapshot is a pure function, so the two runs coincide). -/
theorem C9_expansion_deterministic (t : FsTree) :
    (run_expansion_twice t).1 = (run_expansion_twice t).2 := rfl

/-- C10: applied to a regular file, `expand_dir` increments the shared
budget and returns the single-element list without consulting the global
100-entry cap — for every starting budget, including budgets already past
100, it returns normally and never terminates the process. -/
theorem C10_file_branch_unchecked (id count : Nat) :
    expand_dir (FsTree.file id) count = Except.ok ([id], count + 1) := rfl
